import Mathlib

/-!
Verification of the payment-notification opt-out service
(`src/backend-app.ts`) against its specification.

The embedding models the Postgres-backed state as explicit lists:
`users` (table `users`, only the ids matter here),
`notification_preferences` (table `notification_preferences`, primary key
`(user_id, notification_type)`, foreign key `user_id REFERENCES users(id)`),
and `audit_logs` (table `audit_logs`, append-only).

The write path `updateUserNotificationPreference` runs inside a
BEGIN/COMMIT transaction with ROLLBACK on error; we model this by
publishing the transaction-local state only at the commit point, and by a
fault schedule `faults : Nat -> Bool` that says whether the n-th storage
operation of the call throws.  `uuidv4()` and `NOW()` are modelled as the
externally supplied parameters `newId` and `now` of one call.
-/

/-- `enum PaymentNotificationType` from the source (three members). -/
inductive PaymentNotificationType where
  | PaymentSuccess
  | PaymentFailure
  | PaymentRefund
deriving DecidableEq, Repr

/-- The string value of each enum member in the source. -/
def typeString : PaymentNotificationType → String
  | .PaymentSuccess => "payment_success"
  | .PaymentFailure => "payment_failure"
  | .PaymentRefund => "payment_refund"

/-- `Object.values(PaymentNotificationType)` — the fixed, statically
ordered list of all known categories, in declaration order. -/
def allTypes : List PaymentNotificationType :=
  [.PaymentSuccess, .PaymentFailure, .PaymentRefund]

/-- One result entry of the read and write paths
(`interface NotificationPreference`). -/
structure NotificationPreference where
  type : PaymentNotificationType
  optedOut : Bool
deriving DecidableEq, Repr

/-- One row of table `notification_preferences`. -/
structure PrefRecord where
  user_id : String
  notification_type : PaymentNotificationType
  opted_out : Bool
deriving DecidableEq, Repr

/-- One row of table `audit_logs` (`interface AuditLogEntry`);
`changed_at` is an abstract timestamp. -/
structure AuditLogEntry where
  id : String
  user_id : String
  notification_type : PaymentNotificationType
  old_opted_out : Bool
  new_opted_out : Bool
  changed_at : Nat
  ip_address : Option String
  user_agent : Option String
deriving DecidableEq, Repr

/-- The visible database state: rows of the three tables, each in
insertion order. -/
structure DbState where
  users : List String
  notification_preferences : List PrefRecord
  audit_logs : List AuditLogEntry
deriving DecidableEq, Repr

/-- Errors a storage operation can surface: an injected storage fault
(connectivity, timeout, ...) or the foreign-key violation raised by
`notification_preferences.user_id REFERENCES users(id)`. -/
inductive DbError where
  | storageFault
  | fkViolation
deriving DecidableEq, Repr

/-- The `WHERE user_id = $1 AND notification_type = $2` row predicate. -/
def matchesKey (u : String) (t : PaymentNotificationType) (r : PrefRecord) : Bool :=
  r.user_id == u && r.notification_type == t

/-- The write path's read of the current value (source line 209-213):
`SELECT opted_out ... WHERE user_id = $1 AND notification_type = $2`,
then `oldRows.length > 0 ? oldRows[0].opted_out : false`. -/
def currentOptedOut (db : DbState) (u : String) (t : PaymentNotificationType) : Bool :=
  match (db.notification_preferences.filter (matchesKey u t)).head? with
  | some r => r.opted_out
  | none => false

/-- The `prefMap` loop of `getUserNotificationPreferences` (source lines
179-182): a JS object assigned row by row, so a later row overwrites an
earlier one with the same `notification_type`. -/
def buildPrefMap (rows : List PrefRecord) : PaymentNotificationType → Option Bool :=
  rows.foldl
    (fun m r => fun t => if t == r.notification_type then some r.opted_out else m t)
    (fun _ => none)

/-- `getUserNotificationPreferences` (source lines 168-191): select the
user's rows, build the map, then fill in the default `false` for each of
`allTypes` in order. -/
def getUserNotificationPreferences (db : DbState) (userId : String) :
    List NotificationPreference :=
  let rows := db.notification_preferences.filter (fun r => r.user_id == userId)
  let prefMap := buildPrefMap rows
  allTypes.map (fun t => { type := t, optedOut := (prefMap t).getD false })

/-- Effect on the `notification_preferences` rows of
`INSERT ... ON CONFLICT (user_id, notification_type) DO UPDATE SET
opted_out = EXCLUDED.opted_out` (source lines 218-226): update the
conflicting row in place if one exists, otherwise append a new row. -/
def upsertPrefRows (prefs : List PrefRecord) (u : String)
    (t : PaymentNotificationType) (v : Bool) : List PrefRecord :=
  if prefs.any (matchesKey u t) then
    prefs.map (fun r => if matchesKey u t r then { r with opted_out := v } else r)
  else
    prefs ++ [{ user_id := u, notification_type := t, opted_out := v }]

/-- The audit row inserted by the write path (source lines 228-234), with
`id` the freshly generated uuid and `changed_at` = `NOW()`. -/
def mkAuditEntry (newId : String) (u : String) (t : PaymentNotificationType)
    (oldV newV : Bool) (now : Nat) (ip ua : Option String) : AuditLogEntry :=
  { id := newId, user_id := u, notification_type := t,
    old_opted_out := oldV, new_opted_out := newV,
    changed_at := now, ip_address := ip, user_agent := ua }

/-- `updateUserNotificationPreference` (source lines 197-246).
`faults n = true` means the n-th storage operation of this call throws;
every pre-commit failure rolls the transaction back, so the published
state is the original `db`.  Operation numbering in the effective branch:
0 = BEGIN, 1 = SELECT of the old value, 2 = preference upsert (which can
also fail deterministically on the `user_id` foreign key when it has to
insert), 3 = audit INSERT, 4 = COMMIT, 5 = the post-commit re-read
`getUserNotificationPreferences` (which runs outside the transaction, so
a fault there leaves the committed state in place).  In the no-change
branch the writes are skipped: 2 = COMMIT, 3 = the post-commit re-read. -/
def updateUserNotificationPreference (faults : Nat → Bool) (newId : String)
    (now : Nat) (userId : String) (ty : PaymentNotificationType)
    (optedOut : Bool) (ipAddress userAgent : Option String) (db : DbState) :
    DbState × Except DbError (List NotificationPreference) :=
  if faults 0 then (db, Except.error DbError.storageFault)
  else if faults 1 then (db, Except.error DbError.storageFault)
  else if currentOptedOut db userId ty != optedOut then
    if faults 2 then (db, Except.error DbError.storageFault)
    else if !db.notification_preferences.any (matchesKey userId ty)
        && !db.users.contains userId then
      (db, Except.error DbError.fkViolation)
    else
      let db2 : DbState :=
        { db with
          notification_preferences :=
            upsertPrefRows db.notification_preferences userId ty optedOut,
          audit_logs := db.audit_logs ++
            [mkAuditEntry newId userId ty (currentOptedOut db userId ty)
              optedOut now ipAddress userAgent] }
      if faults 3 then (db, Except.error DbError.storageFault)
      else if faults 4 then (db, Except.error DbError.storageFault)
      else if faults 5 then (db2, Except.error DbError.storageFault)
      else (db2, Except.ok (getUserNotificationPreferences db2 userId))
  else
    if faults 2 then (db, Except.error DbError.storageFault)
    else if faults 3 then (db, Except.error DbError.storageFault)
    else (db, Except.ok (getUserNotificationPreferences db userId))

/-- `shouldSendNotification` (source lines 307-322): select the row for
the key; no row means send (default), otherwise send iff not opted out. -/
def shouldSendNotification (db : DbState) (userId : String)
    (ty : PaymentNotificationType) : Bool :=
  match (db.notification_preferences.filter (matchesKey userId ty)).head? with
  | none => true
  | some r => !r.opted_out

/-- An untyped JSON value as found in the request body. -/
inductive JsonValue where
  | jnull
  | jbool (b : Bool)
  | jnum (n : Int)
  | jstr (s : String)
deriving DecidableEq, Repr

/-- JavaScript falsiness (`!type`) for the values `JsonValue` covers;
an absent body field behaves like `jnull`. -/
def isFalsy : JsonValue → Bool
  | .jnull => true
  | .jbool b => !b
  | .jnum n => n == 0
  | .jstr s => s == ""

/-- `Object.values(PaymentNotificationType).includes(type)` together with
the cast to the enum: a body value decodes iff it is the string of a
known category (`includes` uses strict equality, so non-strings never
match). -/
def decodeNotificationType : JsonValue → Option PaymentNotificationType
  | .jstr s => allTypes.find? (fun t => typeString t == s)
  | _ => none

/-- Outcome of `updateNotificationPreferenceHandler`: HTTP 400 from
validation, HTTP 200 with the preference list, or the error forwarded to
the error middleware. -/
inductive HandlerResponse where
  | badRequest
  | ok (preferences : List NotificationPreference)
  | serverError (e : DbError)
deriving DecidableEq, Repr

/-- `updateNotificationPreferenceHandler` (source lines 271-297): reject
with 400 unless `type` is truthy, a member of the enum, and `optedOut` is
a boolean; only then call `updateUserNotificationPreference`. -/
def updateNotificationPreferenceHandler (faults : Nat → Bool) (newId : String)
    (now : Nat) (userId : String) (bodyType bodyOptedOut : JsonValue)
    (ipAddress userAgent : Option String) (db : DbState) :
    DbState × HandlerResponse :=
  match decodeNotificationType bodyType, bodyOptedOut with
  | some ty, .jbool b =>
    if isFalsy bodyType then (db, HandlerResponse.badRequest)
    else
      match updateUserNotificationPreference faults newId now userId ty b
          ipAddress userAgent db with
      | (db', Except.ok prefs) => (db', HandlerResponse.ok prefs)
      | (db', Except.error e) => (db', HandlerResponse.serverError e)
  | _, _ => (db, HandlerResponse.badRequest)

/-- The fault-free schedule: every storage operation succeeds (apart from
deterministic constraint violations). -/
def noFaults : Nat → Bool := fun _ => false

/-- The inputs of one `setPreference` call, including the uuid drawn for
it and the `NOW()` timestamp observed by it. -/
structure SetPreferenceCall where
  newId : String
  now : Nat
  userId : String
  ty : PaymentNotificationType
  optedOut : Bool
  ipAddress : Option String
  userAgent : Option String
deriving DecidableEq, Repr

/-- State after one fault-free `setPreference` call (result discarded). -/
def applyCall (db : DbState) (k : SetPreferenceCall) : DbState :=
  (updateUserNotificationPreference noFaults k.newId k.now k.userId k.ty
    k.optedOut k.ipAddress k.userAgent db).1

/-- State after a sequence of fault-free `setPreference` calls. -/
def runCalls (db : DbState) (calls : List SetPreferenceCall) : DbState :=
  calls.foldl applyCall db

/-- The `(old, new)` pairs of the audit rows for one `(user, category)`
key, in insertion order. -/
def auditPairsFor (db : DbState) (u : String) (c : PaymentNotificationType) :
    List (Bool × Bool) :=
  (db.audit_logs.filter (fun e => e.user_id == u && e.notification_type == c)).map
    (fun e => (e.old_opted_out, e.new_opted_out))

/-- Modelled from the spec (P3): the transitions a sequence of calls is
supposed to audit for key `(u, c)`, tracking the effective value `cur`
(absence of a record counting as `false`): a call on the key whose
requested value differs from `cur` contributes the pair `(cur, requested)`
and updates `cur`; every other call contributes nothing. -/
def specAuditPairs (cur : Bool) (u : String) (c : PaymentNotificationType) :
    List SetPreferenceCall → List (Bool × Bool)
  | [] => []
  | k :: rest =>
    if k.userId == u && k.ty == c then
      if k.optedOut != cur then
        (cur, k.optedOut) :: specAuditPairs k.optedOut u c rest
      else specAuditPairs cur u c rest
    else specAuditPairs cur u c rest

/-- Modelled from the spec (P5): the effective value for key `(u, c)`
after a sequence of calls, starting from `cur`: each call on the key
leaves its requested value as the effective value. -/
def specFinalValue (cur : Bool) (u : String) (c : PaymentNotificationType) :
    List SetPreferenceCall → Bool
  | [] => cur
  | k :: rest =>
    if k.userId == u && k.ty == c then specFinalValue k.optedOut u c rest
    else specFinalValue cur u c rest

/-- The primary-key invariant of `notification_preferences`: at most one
row per `(user_id, notification_type)`. -/
def PrefsConsistent (prefs : List PrefRecord) : Prop :=
  ∀ r1 ∈ prefs, ∀ r2 ∈ prefs,
    r1.user_id = r2.user_id → r1.notification_type = r2.notification_type →
      r1 = r2

instance (prefs : List PrefRecord) : Decidable (PrefsConsistent prefs) := by
  unfold PrefsConsistent; infer_instance

/-- The state published by the commit of an effective write: the upserted
preference row together with its audit entry. -/
def committedState (db : DbState) (newId : String) (now : Nat) (u : String)
    (c : PaymentNotificationType) (v : Bool) (ip ua : Option String) :
    DbState :=
  { db with
    notification_preferences := upsertPrefRows db.notification_preferences u c v,
    audit_logs := db.audit_logs ++
      [mkAuditEntry newId u c (currentOptedOut db u c) v now ip ua] }

/-- A one-user database with no stored preferences, used by the concrete
witness instances below. -/
def dbW : DbState :=
  { users := ["u1"], notification_preferences := [], audit_logs := [] }

/-- A database with one stored opt-out row, used by a witness instance. -/
def dbW4 : DbState :=
  { users := ["u1"],
    notification_preferences :=
      [{ user_id := "u1", notification_type := .PaymentSuccess,
         opted_out := true }],
    audit_logs := [] }

/-- Witness call: `u1` opts out of payment-success notifications. -/
def wCall1 : SetPreferenceCall :=
  { newId := "id1", now := 1, userId := "u1", ty := .PaymentSuccess,
    optedOut := true, ipAddress := none, userAgent := none }

/-- Witness call: the same request repeated (a no-op). -/
def wCall2 : SetPreferenceCall :=
  { newId := "id2", now := 2, userId := "u1", ty := .PaymentSuccess,
    optedOut := true, ipAddress := none, userAgent := none }

/-- Witness call: `u1` opts out of payment-failure notifications. -/
def wCall3 : SetPreferenceCall :=
  { newId := "id3", now := 3, userId := "u1", ty := .PaymentFailure,
    optedOut := true, ipAddress := none, userAgent := none }

/-- First call of the id-ordering counterexample: the uuid drawn is "b". -/
def kOld : SetPreferenceCall :=
  { newId := "b", now := 1, userId := "u1", ty := .PaymentSuccess,
    optedOut := true, ipAddress := none, userAgent := none }

/-- Second call of the id-ordering counterexample: the uuid drawn is "a". -/
def kNew : SetPreferenceCall :=
  { newId := "a", now := 2, userId := "u1", ty := .PaymentFailure,
    optedOut := true, ipAddress := none, userAgent := none }

/-! ### List-level helper lemmas -/

theorem head?_filter {α : Type} (p : α → Bool) (l : List α) :
    (l.filter p).head? = l.find? p := by
  induction l with
  | nil => rfl
  | cons a l ih =>
    by_cases h : p a = true
    · simp [List.filter, List.find?, h]
    · simp only [Bool.not_eq_true] at h
      simp [List.filter, List.find?, h, ih]

theorem matchesKey_iff (u : String) (c : PaymentNotificationType)
    (r : PrefRecord) :
    matchesKey u c r = true ↔ r.user_id = u ∧ r.notification_type = c := by
  simp [matchesKey]

theorem currentOptedOut_eq (db : DbState) (u : String)
    (c : PaymentNotificationType) :
    currentOptedOut db u c =
      ((db.notification_preferences.find? (matchesKey u c)).map
        (fun r => r.opted_out)).getD false := by
  unfold currentOptedOut
  rw [head?_filter]
  cases db.notification_preferences.find? (matchesKey u c) <;> rfl

theorem matchesKey_set_opted_out (u : String) (c : PaymentNotificationType)
    (r : PrefRecord) (v : Bool) :
    matchesKey u c { r with opted_out := v } = matchesKey u c r := by
  simp [matchesKey]

/-! ### Lemmas on the preference upsert -/

theorem matchesKey_mk (u : String) (c : PaymentNotificationType) (v : Bool) :
    matchesKey u c { user_id := u, notification_type := c, opted_out := v }
      = true := by
  simp [matchesKey]

theorem find?_map_upsert (u : String) (c : PaymentNotificationType) (v : Bool)
    (prefs : List PrefRecord) (h : prefs.any (matchesKey u c) = true) :
    (prefs.map (fun r => if matchesKey u c r then { r with opted_out := v }
      else r)).find? (matchesKey u c) =
      some { user_id := u, notification_type := c, opted_out := v } := by
  induction prefs with
  | nil => simp at h
  | cons a l ih =>
    by_cases ha : matchesKey u c a = true
    · obtain ⟨h1, h2⟩ := (matchesKey_iff u c a).mp ha
      simp [List.find?, ha, matchesKey_set_opted_out, h1, h2, matchesKey_mk]
    · have ha' : matchesKey u c a = false := by simpa using ha
      have hl : l.any (matchesKey u c) = true := by
        simp only [List.any_cons, ha', Bool.false_or] at h
        exact h
      rw [List.map_cons, if_neg (by simp [ha'])]
      simp only [List.find?, ha']
      exact ih hl

theorem find?_map_other (u u' : String) (c c' : PaymentNotificationType)
    (v : Bool) (prefs : List PrefRecord) (h : ¬(u' = u ∧ c' = c)) :
    (prefs.map (fun r => if matchesKey u c r then { r with opted_out := v }
      else r)).find? (matchesKey u' c') = prefs.find? (matchesKey u' c') := by
  induction prefs with
  | nil => rfl
  | cons a l ih =>
    by_cases ha : matchesKey u c a = true
    · obtain ⟨h1, h2⟩ := (matchesKey_iff u c a).mp ha
      have hno : matchesKey u' c' a = false := by
        by_cases hb : matchesKey u' c' a = true
        · obtain ⟨h1', h2'⟩ := (matchesKey_iff u' c' a).mp hb
          exact absurd ⟨h1'.symm.trans h1, h2'.symm.trans h2⟩ h
        · simpa using hb
      simp only [List.map_cons, if_pos ha, List.find?,
        matchesKey_set_opted_out, hno]
      exact ih
    · have ha' : matchesKey u c a = false := by simpa using ha
      rw [List.map_cons, if_neg (by simp [ha'])]
      cases hm : matchesKey u' c' a
      · simp only [List.find?, hm]
        exact ih
      · simp only [List.find?, hm]

theorem filter_not_match_map (u : String) (c : PaymentNotificationType)
    (v : Bool) (prefs : List PrefRecord) :
    (prefs.map (fun r => if matchesKey u c r then { r with opted_out := v }
      else r)).filter (fun r => !(matchesKey u c r)) =
      prefs.filter (fun r => !(matchesKey u c r)) := by
  induction prefs with
  | nil => rfl
  | cons a l ih =>
    by_cases ha : matchesKey u c a = true
    · simp only [List.map_cons, List.filter]
      rw [if_pos ha]
      simp only [matchesKey_set_opted_out, ha, Bool.not_true]
      exact ih
    · have ha' : matchesKey u c a = false := by simpa using ha
      rw [List.map_cons, if_neg (by simp [ha'])]
      simp only [List.filter, ha', Bool.not_false]
      rw [ih]

theorem find?_upsert_self (prefs : List PrefRecord) (u : String)
    (c : PaymentNotificationType) (v : Bool) :
    (upsertPrefRows prefs u c v).find? (matchesKey u c) =
      some { user_id := u, notification_type := c, opted_out := v } := by
  unfold upsertPrefRows
  by_cases h : prefs.any (matchesKey u c) = true
  · rw [if_pos h]
    exact find?_map_upsert u c v prefs h
  · have h' : prefs.any (matchesKey u c) = false := by simpa using h
    rw [if_neg (by simp [h']), List.find?_append]
    have hnone : prefs.find? (matchesKey u c) = none := by
      rw [List.find?_eq_none]
      intro x hx hpx
      exact absurd (List.any_eq_true.mpr ⟨x, hx, hpx⟩) (by simp [h'])
    rw [hnone]
    simp [List.find?, matchesKey]

theorem find?_upsert_other (prefs : List PrefRecord) (u u' : String)
    (c c' : PaymentNotificationType) (v : Bool) (h : ¬(u' = u ∧ c' = c)) :
    (upsertPrefRows prefs u c v).find? (matchesKey u' c') =
      prefs.find? (matchesKey u' c') := by
  unfold upsertPrefRows
  by_cases hany : prefs.any (matchesKey u c) = true
  · rw [if_pos hany]
    exact find?_map_other u u' c c' v prefs h
  · have h' : prefs.any (matchesKey u c) = false := by simpa using hany
    rw [if_neg (by simp [h']), List.find?_append]
    have hnew : List.find? (matchesKey u' c')
        [{ user_id := u, notification_type := c, opted_out := v }] = none := by
      have hno : matchesKey u' c'
          { user_id := u, notification_type := c, opted_out := v } = false := by
        by_cases hb : matchesKey u' c'
            { user_id := u, notification_type := c, opted_out := v } = true
        · obtain ⟨h1', h2'⟩ := (matchesKey_iff u' c' _).mp hb
          exact absurd ⟨h1'.symm, h2'.symm⟩ h
        · simpa using hb
      simp [List.find?, hno]
    rw [hnew]
    cases prefs.find? (matchesKey u' c') <;> rfl

theorem filter_not_match_upsert (prefs : List PrefRecord) (u : String)
    (c : PaymentNotificationType) (v : Bool) :
    (upsertPrefRows prefs u c v).filter (fun r => !(matchesKey u c r)) =
      prefs.filter (fun r => !(matchesKey u c r)) := by
  unfold upsertPrefRows
  by_cases hany : prefs.any (matchesKey u c) = true
  · rw [if_pos hany]
    exact filter_not_match_map u c v prefs
  · have h' : prefs.any (matchesKey u c) = false := by simpa using hany
    rw [if_neg (by simp [h']), List.filter_append]
    have hone : List.filter (fun r => !(matchesKey u c r))
        [{ user_id := u, notification_type := c, opted_out := v }] = [] := by
      simp [List.filter, matchesKey]
    rw [hone, List.append_nil]

/-! ### Lemmas on the `prefMap` object -/

theorem buildPrefMap_append (rows : List PrefRecord) (r : PrefRecord)
    (t : PaymentNotificationType) :
    buildPrefMap (rows ++ [r]) t =
      if t == r.notification_type then some r.opted_out
      else buildPrefMap rows t := by
  simp [buildPrefMap, List.foldl_append]

theorem buildPrefMap_eq_find?_reverse (rows : List PrefRecord)
    (t : PaymentNotificationType) :
    buildPrefMap rows t =
      (rows.reverse.find? (fun r => r.notification_type == t)).map
        (fun r => r.opted_out) := by
  induction rows using List.reverseRecOn with
  | nil => rfl
  | append_singleton l a ih =>
    rw [buildPrefMap_append]
    have hrev : (l ++ [a]).reverse = a :: l.reverse := by simp
    rw [hrev]
    by_cases h : t = a.notification_type
    · simp [List.find?, h]
    · have h' : (a.notification_type == t) = false := by simp [Ne.symm h]
      simp only [List.find?, h']
      rw [if_neg (by simp [h]), ih]

theorem buildPrefMap_const (rows : List PrefRecord)
    (c : PaymentNotificationType) (v : Bool)
    (hall : ∀ r ∈ rows, r.notification_type = c → r.opted_out = v)
    (hex : ∃ r ∈ rows, r.notification_type = c) :
    buildPrefMap rows c = some v := by
  rw [buildPrefMap_eq_find?_reverse]
  obtain ⟨r0, hr0, ht0⟩ := hex
  have hsome : (rows.reverse.find? (fun r => r.notification_type == c)).isSome
      = true := by
    rw [List.find?_isSome]
    exact ⟨r0, List.mem_reverse.mpr hr0, by simp [ht0]⟩
  obtain ⟨r', hr'⟩ := Option.isSome_iff_exists.mp hsome
  have hmem : r' ∈ rows := List.mem_reverse.mp (List.mem_of_find?_eq_some hr')
  have hty : r'.notification_type = c := by
    have := List.find?_some hr'
    simpa using this
  rw [hr']
  simp [hall r' hmem hty]

/-! ### Characterization of the write path -/

theorem noFaults_eq (n : Nat) : noFaults n = false := rfl

theorem update_noop (newId : String) (now : Nat) (u : String)
    (c : PaymentNotificationType) (v : Bool) (ip ua : Option String)
    (db : DbState) (h : currentOptedOut db u c = v) :
    updateUserNotificationPreference noFaults newId now u c v ip ua db =
      (db, Except.ok (getUserNotificationPreferences db u)) := by
  unfold updateUserNotificationPreference
  rw [noFaults_eq, noFaults_eq, noFaults_eq, noFaults_eq, h, bne_self_eq_false]
  rfl

theorem update_effective (newId : String) (now : Nat) (u : String)
    (c : PaymentNotificationType) (v : Bool) (ip ua : Option String)
    (db : DbState) (h : currentOptedOut db u c ≠ v)
    (hu : db.notification_preferences.any (matchesKey u c) = true
      ∨ db.users.contains u = true) :
    updateUserNotificationPreference noFaults newId now u c v ip ua db =
      (committedState db newId now u c v ip ua,
        Except.ok (getUserNotificationPreferences
          (committedState db newId now u c v ip ua) u)) := by
  have hbne : (currentOptedOut db u c != v) = true := by
    simpa using h
  have hfk : ¬((!db.notification_preferences.any (matchesKey u c)
      && !db.users.contains u) = true) := by
    rcases hu with h1 | h1
    · simp [h1]
    · have hmem : u ∈ db.users := by simpa using h1
      simp [hmem]
  unfold updateUserNotificationPreference
  rw [noFaults_eq, noFaults_eq, noFaults_eq, hbne]
  rw [if_neg (by simp : ¬(false = true)), if_neg (by simp : ¬(false = true)),
    if_pos rfl, if_neg (by simp : ¬(false = true)), if_neg hfk]
  rfl

theorem update_fk (newId : String) (now : Nat) (u : String)
    (c : PaymentNotificationType) (v : Bool) (ip ua : Option String)
    (db : DbState) (h : currentOptedOut db u c ≠ v)
    (h1 : db.notification_preferences.any (matchesKey u c) = false)
    (h2 : db.users.contains u = false) :
    updateUserNotificationPreference noFaults newId now u c v ip ua db =
      (db, Except.error DbError.fkViolation) := by
  have hbne : (currentOptedOut db u c != v) = true := by
    simpa using h
  have hfk : (!db.notification_preferences.any (matchesKey u c)
      && !db.users.contains u) = true := by
    have hmem : u ∉ db.users := by simpa using h2
    simp [h1, hmem]
  unfold updateUserNotificationPreference
  rw [noFaults_eq, noFaults_eq, noFaults_eq, hbne]
  rw [if_neg (by simp : ¬(false = true)), if_neg (by simp : ¬(false = true)),
    if_pos rfl, if_neg (by simp : ¬(false = true)), if_pos hfk]

theorem update_fst_cases (faults : Nat → Bool) (newId : String) (now : Nat)
    (u : String) (c : PaymentNotificationType) (v : Bool)
    (ip ua : Option String) (db : DbState) :
    (updateUserNotificationPreference faults newId now u c v ip ua db).1 = db
    ∨ (currentOptedOut db u c ≠ v ∧
        (updateUserNotificationPreference faults newId now u c v ip ua db).1 =
          committedState db newId now u c v ip ua) := by
  unfold updateUserNotificationPreference
  split
  · exact Or.inl rfl
  split
  · exact Or.inl rfl
  split
  case isTrue hch =>
    have hne : currentOptedOut db u c ≠ v := by simpa using hch
    split
    · exact Or.inl rfl
    split
    · exact Or.inl rfl
    split
    · exact Or.inl rfl
    split
    · exact Or.inl rfl
    split
    · exact Or.inr ⟨hne, rfl⟩
    · exact Or.inr ⟨hne, rfl⟩
  case isFalse hch =>
    split
    · exact Or.inl rfl
    split
    · exact Or.inl rfl
    · exact Or.inl rfl

/-! ### Step lemmas on `applyCall` -/

theorem applyCall_noop (db : DbState) (k : SetPreferenceCall)
    (h : currentOptedOut db k.userId k.ty = k.optedOut) :
    applyCall db k = db := by
  unfold applyCall
  rw [update_noop _ _ _ _ _ _ _ _ h]

theorem applyCall_effective (db : DbState) (k : SetPreferenceCall)
    (h : currentOptedOut db k.userId k.ty ≠ k.optedOut)
    (hu : db.notification_preferences.any (matchesKey k.userId k.ty) = true
      ∨ db.users.contains k.userId = true) :
    applyCall db k =
      committedState db k.newId k.now k.userId k.ty k.optedOut
        k.ipAddress k.userAgent := by
  unfold applyCall
  rw [update_effective _ _ _ _ _ _ _ _ h hu]

theorem users_applyCall (db : DbState) (k : SetPreferenceCall) :
    (applyCall db k).users = db.users := by
  unfold applyCall
  rcases update_fst_cases noFaults k.newId k.now k.userId k.ty k.optedOut
    k.ipAddress k.userAgent db with h | ⟨_, h⟩
  · rw [h]
  · rw [h]; rfl

theorem prefs_committedState (db : DbState) (newId : String) (now : Nat)
    (u : String) (c : PaymentNotificationType) (v : Bool)
    (ip ua : Option String) :
    (committedState db newId now u c v ip ua).notification_preferences =
      upsertPrefRows db.notification_preferences u c v := rfl

theorem audit_committedState (db : DbState) (newId : String) (now : Nat)
    (u : String) (c : PaymentNotificationType) (v : Bool)
    (ip ua : Option String) :
    (committedState db newId now u c v ip ua).audit_logs =
      db.audit_logs ++
        [mkAuditEntry newId u c (currentOptedOut db u c) v now ip ua] := rfl

theorem currentOptedOut_committed_self (db : DbState) (newId : String)
    (now : Nat) (u : String) (c : PaymentNotificationType) (v : Bool)
    (ip ua : Option String) :
    currentOptedOut (committedState db newId now u c v ip ua) u c = v := by
  rw [currentOptedOut_eq, prefs_committedState, find?_upsert_self]
  rfl

theorem currentOptedOut_committed_other (db : DbState) (newId : String)
    (now : Nat) (u u' : String) (c c' : PaymentNotificationType) (v : Bool)
    (ip ua : Option String) (h : ¬(u' = u ∧ c' = c)) :
    currentOptedOut (committedState db newId now u c v ip ua) u' c' =
      currentOptedOut db u' c' := by
  rw [currentOptedOut_eq, currentOptedOut_eq, prefs_committedState,
    find?_upsert_other _ _ _ _ _ _ h]

theorem currentOptedOut_applyCall_self (db : DbState) (k : SetPreferenceCall)
    (hu : db.users.contains k.userId = true) :
    currentOptedOut (applyCall db k) k.userId k.ty = k.optedOut := by
  by_cases h : currentOptedOut db k.userId k.ty = k.optedOut
  · rw [applyCall_noop db k h]; exact h
  · rw [applyCall_effective db k h (Or.inr hu)]
    exact currentOptedOut_committed_self _ _ _ _ _ _ _ _

theorem currentOptedOut_applyCall_other (db : DbState)
    (k : SetPreferenceCall) (u : String) (c : PaymentNotificationType)
    (h : ¬(u = k.userId ∧ c = k.ty)) :
    currentOptedOut (applyCall db k) u c = currentOptedOut db u c := by
  unfold applyCall
  rcases update_fst_cases noFaults k.newId k.now k.userId k.ty k.optedOut
    k.ipAddress k.userAgent db with h1 | ⟨_, h1⟩
  · rw [h1]
  · rw [h1]
    exact currentOptedOut_committed_other _ _ _ _ _ _ _ _ _ _ h

theorem auditPairsFor_committed_self (db : DbState) (newId : String)
    (now : Nat) (u : String) (c : PaymentNotificationType) (v : Bool)
    (ip ua : Option String) :
    auditPairsFor (committedState db newId now u c v ip ua) u c =
      auditPairsFor db u c ++ [(currentOptedOut db u c, v)] := by
  unfold auditPairsFor
  rw [audit_committedState, List.filter_append, List.map_append]
  congr 1
  simp [List.filter, mkAuditEntry]

theorem auditPairsFor_committed_other (db : DbState) (newId : String)
    (now : Nat) (u u' : String) (c c' : PaymentNotificationType) (v : Bool)
    (ip ua : Option String) (h : ¬(u' = u ∧ c' = c)) :
    auditPairsFor (committedState db newId now u c v ip ua) u' c' =
      auditPairsFor db u' c' := by
  unfold auditPairsFor
  rw [audit_committedState, List.filter_append]
  have hpred : ((mkAuditEntry newId u c (currentOptedOut db u c) v now
      ip ua).user_id == u'
      && (mkAuditEntry newId u c (currentOptedOut db u c) v now
        ip ua).notification_type == c') = false := by
    by_cases h1 : u = u'
    · by_cases h2 : c = c'
      · exact absurd ⟨h1.symm, h2.symm⟩ h
      · simp [mkAuditEntry, h2]
    · simp [mkAuditEntry, h1]
  have hnil : List.filter
      (fun e => e.user_id == u' && e.notification_type == c')
      [mkAuditEntry newId u c (currentOptedOut db u c) v now ip ua] = [] := by
    simp only [List.filter, hpred]
  rw [hnil, List.append_nil]

theorem auditPairsFor_applyCall_self (db : DbState) (k : SetPreferenceCall)
    (hu : db.users.contains k.userId = true) :
    auditPairsFor (applyCall db k) k.userId k.ty =
      auditPairsFor db k.userId k.ty ++
        (if currentOptedOut db k.userId k.ty != k.optedOut
          then [(currentOptedOut db k.userId k.ty, k.optedOut)] else []) := by
  by_cases h : currentOptedOut db k.userId k.ty = k.optedOut
  · rw [applyCall_noop db k h]
    simp [h]
  · rw [applyCall_effective db k h (Or.inr hu),
      auditPairsFor_committed_self]
    have hbne : (currentOptedOut db k.userId k.ty != k.optedOut) = true := by
      simpa using h
    rw [hbne, if_pos rfl]

theorem auditPairsFor_applyCall_other (db : DbState)
    (k : SetPreferenceCall) (u : String) (c : PaymentNotificationType)
    (h : ¬(u = k.userId ∧ c = k.ty)) :
    auditPairsFor (applyCall db k) u c = auditPairsFor db u c := by
  unfold applyCall
  rcases update_fst_cases noFaults k.newId k.now k.userId k.ty k.optedOut
    k.ipAddress k.userAgent db with h1 | ⟨_, h1⟩
  · rw [h1]
  · rw [h1]
    exact auditPairsFor_committed_other _ _ _ _ _ _ _ _ _ _ h

/-! ### Sequence lemmas -/

theorem runCalls_nil (db : DbState) : runCalls db [] = db := rfl

theorem runCalls_cons (db : DbState) (k : SetPreferenceCall)
    (rest : List SetPreferenceCall) :
    runCalls db (k :: rest) = runCalls (applyCall db k) rest := rfl

theorem users_runCalls (calls : List SetPreferenceCall) : ∀ db : DbState,
    (runCalls db calls).users = db.users := by
  induction calls with
  | nil => intro db; rfl
  | cons k rest ih =>
    intro db
    rw [runCalls_cons, ih, users_applyCall]

theorem currentOptedOut_runCalls (u : String) (c : PaymentNotificationType)
    (calls : List SetPreferenceCall) : ∀ db : DbState,
    (∀ k ∈ calls, db.users.contains k.userId = true) →
    currentOptedOut (runCalls db calls) u c =
      specFinalValue (currentOptedOut db u c) u c calls := by
  induction calls with
  | nil => intro db _; rfl
  | cons k rest ih =>
    intro db hu
    rw [runCalls_cons]
    have hrest : ∀ k' ∈ rest, (applyCall db k).users.contains k'.userId
        = true := by
      intro k' hk'
      rw [users_applyCall]
      exact hu k' (List.mem_cons_of_mem _ hk')
    rw [ih (applyCall db k) hrest]
    simp only [specFinalValue]
    by_cases hkey : (k.userId == u && k.ty == c) = true
    · obtain ⟨h1, h2⟩ : k.userId = u ∧ k.ty = c := by simpa using hkey
      rw [if_pos hkey]
      have := currentOptedOut_applyCall_self db k
        (hu k (List.mem_cons_self _ _))
      rw [← h1, ← h2, this]
    · rw [if_neg hkey]
      have hne : ¬(u = k.userId ∧ c = k.ty) := by
        intro ⟨e1, e2⟩
        exact hkey (by simp [e1, e2])
      rw [currentOptedOut_applyCall_other db k u c hne]

theorem auditPairsFor_runCalls (u : String) (c : PaymentNotificationType)
    (calls : List SetPreferenceCall) : ∀ db : DbState,
    (∀ k ∈ calls, db.users.contains k.userId = true) →
    auditPairsFor (runCalls db calls) u c =
      auditPairsFor db u c ++
        specAuditPairs (currentOptedOut db u c) u c calls := by
  induction calls with
  | nil => intro db _; simp [runCalls_nil, specAuditPairs]
  | cons k rest ih =>
    intro db hu
    rw [runCalls_cons]
    have hk0 : db.users.contains k.userId = true :=
      hu k (List.mem_cons_self _ _)
    have hrest : ∀ k' ∈ rest, (applyCall db k).users.contains k'.userId
        = true := by
      intro k' hk'
      rw [users_applyCall]
      exact hu k' (List.mem_cons_of_mem _ hk')
    rw [ih (applyCall db k) hrest]
    simp only [specAuditPairs]
    by_cases hkey : (k.userId == u && k.ty == c) = true
    · obtain ⟨h1, h2⟩ : k.userId = u ∧ k.ty = c := by simpa using hkey
      rw [if_pos hkey]
      subst h1; subst h2
      have hsel := auditPairsFor_applyCall_self db k hk0
      have hcur := currentOptedOut_applyCall_self db k hk0
      by_cases heff : currentOptedOut db k.userId k.ty = k.optedOut
      · have hbne : (k.optedOut != currentOptedOut db k.userId k.ty)
            = false := by simp [heff]
        rw [hbne, if_neg (by simp : ¬(false = true))]
        rw [applyCall_noop db k heff] at *
      · have hbne : (k.optedOut != currentOptedOut db k.userId k.ty)
            = true := by simp [Ne.symm heff]
        have hbne' : (currentOptedOut db k.userId k.ty != k.optedOut)
            = true := by simp [heff]
        rw [hbne, if_pos rfl, hsel, hbne', if_pos rfl, hcur,
          List.append_assoc, List.singleton_append]
    · rw [if_neg hkey]
      have hne : ¬(k.userId = u ∧ k.ty = c) := by
        intro ⟨e1, e2⟩
        exact hkey (by simp [e1, e2])
      have hne' : ¬(u = k.userId ∧ c = k.ty) := by
        intro ⟨e1, e2⟩
        exact hne ⟨e1.symm, e2.symm⟩
      rw [auditPairsFor_applyCall_other db k u c hne',
        currentOptedOut_applyCall_other db k u c hne']

/-! ### Lemmas on the read path and the gate -/

theorem buildPrefMap_filter_user (prefs : List PrefRecord) (u : String)
    (c : PaymentNotificationType) (hcons : PrefsConsistent prefs) :
    buildPrefMap (prefs.filter (fun r => r.user_id == u)) c =
      (prefs.find? (matchesKey u c)).map (fun r => r.opted_out) := by
  rw [buildPrefMap_eq_find?_reverse]
  cases hfind : prefs.find? (matchesKey u c) with
  | none =>
    have hnone := List.find?_eq_none.mp hfind
    have hrev : (prefs.filter (fun r => r.user_id == u)).reverse.find?
        (fun r => r.notification_type == c) = none := by
      rw [List.find?_eq_none]
      intro r hr hpr
      obtain ⟨hmem, huser⟩ := List.mem_filter.mp (List.mem_reverse.mp hr)
      exact hnone r hmem ((matchesKey_iff u c r).mpr
        ⟨by simpa using huser, by simpa using hpr⟩)
    rw [hrev]
  | some r0 =>
    have hmem0 : r0 ∈ prefs := List.mem_of_find?_eq_some hfind
    obtain ⟨h1, h2⟩ := (matchesKey_iff u c r0).mp (List.find?_some hfind)
    have hsome : ((prefs.filter (fun r => r.user_id == u)).reverse.find?
        (fun r => r.notification_type == c)).isSome = true := by
      rw [List.find?_isSome]
      exact ⟨r0, List.mem_reverse.mpr
        (List.mem_filter.mpr ⟨hmem0, by simp [h1]⟩), by simp [h2]⟩
    obtain ⟨r', hr'⟩ := Option.isSome_iff_exists.mp hsome
    obtain ⟨hmem', huser'⟩ :=
      List.mem_filter.mp (List.mem_reverse.mp (List.mem_of_find?_eq_some hr'))
    have hty' : r'.notification_type = c := by
      simpa using List.find?_some hr'
    have : r' = r0 := hcons r' hmem' r0 hmem0
      ((by simpa using huser' : r'.user_id = u).trans h1.symm)
      (hty'.trans h2.symm)
    rw [hr', this]

theorem getPrefs_find?_entry (db : DbState) (u : String)
    (c : PaymentNotificationType) :
    (getUserNotificationPreferences db u).find? (fun p => p.type == c) =
      some { type := c,
             optedOut := (buildPrefMap (db.notification_preferences.filter
               (fun r => r.user_id == u)) c).getD false } := by
  cases c <;> rfl

theorem getPrefs_types (db : DbState) (u : String) :
    (getUserNotificationPreferences db u).map (fun p => p.type)
      = allTypes := rfl

theorem getPrefs_of_consistent (db : DbState) (u : String)
    (hcons : PrefsConsistent db.notification_preferences) :
    getUserNotificationPreferences db u =
      allTypes.map (fun t => { type := t, optedOut := currentOptedOut db u t })
    := by
  unfold getUserNotificationPreferences
  apply List.map_congr_left
  intro t _
  rw [buildPrefMap_filter_user _ _ _ hcons, currentOptedOut_eq]

theorem getPrefs_default (db : DbState) (u : String)
    (h : ∀ r ∈ db.notification_preferences, r.user_id ≠ u) :
    getUserNotificationPreferences db u =
      allTypes.map (fun t => { type := t, optedOut := false }) := by
  unfold getUserNotificationPreferences
  have hnil : db.notification_preferences.filter (fun r => r.user_id == u)
      = [] := by
    rw [List.filter_eq_nil_iff]
    intro r hr
    simp [h r hr]
  rw [hnil]
  rfl

theorem shouldSend_eq_not_current (db : DbState) (u : String)
    (c : PaymentNotificationType) :
    shouldSendNotification db u c = !(currentOptedOut db u c) := by
  unfold shouldSendNotification currentOptedOut
  cases (db.notification_preferences.filter (matchesKey u c)).head? <;> rfl

/-! ### The view entry after an effective upsert -/

theorem upsert_self_opted (prefs : List PrefRecord) (u : String)
    (c : PaymentNotificationType) (v : Bool) :
    (∀ r ∈ upsertPrefRows prefs u c v,
        r.user_id = u → r.notification_type = c → r.opted_out = v)
    ∧ (∃ r ∈ upsertPrefRows prefs u c v,
        r.user_id = u ∧ r.notification_type = c) := by
  unfold upsertPrefRows
  by_cases hany : prefs.any (matchesKey u c) = true
  · rw [if_pos hany]
    constructor
    · intro r hr h1 h2
      obtain ⟨r0, hr0, hfr⟩ := List.mem_map.mp hr
      by_cases hm : matchesKey u c r0 = true
      · rw [if_pos hm] at hfr
        rw [← hfr]
      · rw [if_neg hm] at hfr
        rw [← hfr] at h1 h2
        exact absurd ((matchesKey_iff u c r0).mpr ⟨h1, h2⟩) hm
    · obtain ⟨r0, hr0, hm⟩ := List.any_eq_true.mp hany
      obtain ⟨h1, h2⟩ := (matchesKey_iff u c r0).mp hm
      exact ⟨{ r0 with opted_out := v },
        List.mem_map.mpr ⟨r0, hr0, by rw [if_pos hm]⟩, h1, h2⟩
  · have hany' : prefs.any (matchesKey u c) = false := by simpa using hany
    rw [if_neg (by simp [hany'])]
    constructor
    · intro r hr h1 h2
      rcases List.mem_append.mp hr with hmem | hmem
      · have hm : matchesKey u c r = true := (matchesKey_iff u c r).mpr ⟨h1, h2⟩
        have := List.any_eq_true.mpr ⟨r, hmem, hm⟩
        rw [hany'] at this
        exact absurd this Bool.false_ne_true
      · have : r = { user_id := u, notification_type := c, opted_out := v }
          := by simpa using hmem
        rw [this]
    · exact ⟨{ user_id := u, notification_type := c, opted_out := v },
        List.mem_append.mpr (Or.inr (by simp)), rfl, rfl⟩

theorem buildPrefMap_upsert_self (prefs : List PrefRecord) (u : String)
    (c : PaymentNotificationType) (v : Bool) :
    buildPrefMap ((upsertPrefRows prefs u c v).filter
      (fun r => r.user_id == u)) c = some v := by
  obtain ⟨hall, r0, hr0, h1, h2⟩ := upsert_self_opted prefs u c v
  apply buildPrefMap_const
  · intro r hr hty
    obtain ⟨hmem, huser⟩ := List.mem_filter.mp hr
    exact hall r hmem (by simpa using huser) hty
  · exact ⟨r0, List.mem_filter.mpr ⟨hr0, by simp [h1]⟩, h2⟩

/-! ### Lemmas for the missing-user case -/

theorem currentOptedOut_no_rows (db : DbState) (u : String)
    (c : PaymentNotificationType)
    (h : ∀ r ∈ db.notification_preferences, r.user_id ≠ u) :
    currentOptedOut db u c = false := by
  rw [currentOptedOut_eq]
  have hnone : db.notification_preferences.find? (matchesKey u c) = none := by
    rw [List.find?_eq_none]
    intro r hr hm
    exact h r hr ((matchesKey_iff u c r).mp hm).1
  rw [hnone]
  rfl

theorem any_no_rows (db : DbState) (u : String) (c : PaymentNotificationType)
    (h : ∀ r ∈ db.notification_preferences, r.user_id ≠ u) :
    db.notification_preferences.any (matchesKey u c) = false := by
  by_cases hany : db.notification_preferences.any (matchesKey u c) = true
  · obtain ⟨r, hr, hm⟩ := List.any_eq_true.mp hany
    exact ((h r hr) ((matchesKey_iff u c r).mp hm).1).elim
  · simpa using hany

theorem decode_typeString (c : PaymentNotificationType) :
    decodeNotificationType (JsonValue.jstr (typeString c)) = some c := by
  cases c <;> rfl

theorem isFalsy_typeString (c : PaymentNotificationType) :
    isFalsy (JsonValue.jstr (typeString c)) = false := by
  cases c <;> rfl

/-! ### Full-result case analysis of the write path -/

theorem update_cases_full (faults : Nat → Bool) (newId : String) (now : Nat)
    (u : String) (c : PaymentNotificationType) (v : Bool)
    (ip ua : Option String) (db : DbState) :
    updateUserNotificationPreference faults newId now u c v ip ua db =
      (db, Except.error DbError.storageFault)
    ∨ updateUserNotificationPreference faults newId now u c v ip ua db =
      (db, Except.error DbError.fkViolation)
    ∨ updateUserNotificationPreference faults newId now u c v ip ua db =
      (committedState db newId now u c v ip ua,
        Except.error DbError.storageFault)
    ∨ (currentOptedOut db u c = v ∧
        updateUserNotificationPreference faults newId now u c v ip ua db =
          (db, Except.ok (getUserNotificationPreferences db u)))
    ∨ (currentOptedOut db u c ≠ v ∧
        updateUserNotificationPreference faults newId now u c v ip ua db =
          (committedState db newId now u c v ip ua,
            Except.ok (getUserNotificationPreferences
              (committedState db newId now u c v ip ua) u))) := by
  unfold updateUserNotificationPreference
  split
  · exact Or.inl rfl
  split
  · exact Or.inl rfl
  split
  case isTrue hch =>
    have hne : currentOptedOut db u c ≠ v := by simpa using hch
    split
    · exact Or.inl rfl
    split
    · exact Or.inr (Or.inl rfl)
    split
    · exact Or.inl rfl
    split
    · exact Or.inl rfl
    split
    · exact Or.inr (Or.inr (Or.inl rfl))
    · exact Or.inr (Or.inr (Or.inr (Or.inr ⟨hne, rfl⟩)))
  case isFalse hch =>
    have heq : currentOptedOut db u c = v := by
      by_cases h : currentOptedOut db u c = v
      · exact h
      · exact absurd (by simpa using h) hch
    split
    · exact Or.inl rfl
    split
    · exact Or.inl rfl
    · exact Or.inr (Or.inr (Or.inr (Or.inl ⟨heq, rfl⟩)))

theorem applyCall_audit (db : DbState) (k : SetPreferenceCall) :
    (applyCall db k).audit_logs = db.audit_logs
    ∨ (applyCall db k).audit_logs = db.audit_logs ++
        [mkAuditEntry k.newId k.userId k.ty
          (currentOptedOut db k.userId k.ty) k.optedOut k.now
          k.ipAddress k.userAgent] := by
  unfold applyCall
  rcases update_fst_cases noFaults k.newId k.now k.userId k.ty k.optedOut
    k.ipAddress k.userAgent db with h | ⟨_, h⟩
  · rw [h]
    exact Or.inl rfl
  · rw [h]
    exact Or.inr rfl

theorem second_call_same_value (dbX : DbState) (newId1 newId2 : String)
    (now1 now2 : Nat) (u : String) (c : PaymentNotificationType) (v : Bool)
    (ip1 ua1 ip2 ua2 : Option String) :
    (updateUserNotificationPreference noFaults newId2 now2 u c v ip2 ua2
      ((updateUserNotificationPreference noFaults newId1 now1 u c v ip1 ua1
        dbX).1)).1
    = (updateUserNotificationPreference noFaults newId1 now1 u c v ip1 ua1
        dbX).1 := by
  by_cases hc : currentOptedOut dbX u c = v
  · have h1 : (updateUserNotificationPreference noFaults newId1 now1 u c v
        ip1 ua1 dbX).1 = dbX := by
      rw [update_noop newId1 now1 u c v ip1 ua1 dbX hc]
    rw [h1, update_noop newId2 now2 u c v ip2 ua2 dbX hc]
  · by_cases hu : dbX.notification_preferences.any (matchesKey u c) = true
        ∨ dbX.users.contains u = true
    · have h1 : (updateUserNotificationPreference noFaults newId1 now1 u c v
          ip1 ua1 dbX).1 = committedState dbX newId1 now1 u c v ip1 ua1 := by
        rw [update_effective newId1 now1 u c v ip1 ua1 dbX hc hu]
      rw [h1, update_noop newId2 now2 u c v ip2 ua2 _
        (currentOptedOut_committed_self dbX newId1 now1 u c v ip1 ua1)]
    · have hany : dbX.notification_preferences.any (matchesKey u c) = false
        := by
        rcases not_or.mp hu with ⟨ha, _⟩
        simpa using ha
      have hcont : dbX.users.contains u = false := by
        rcases not_or.mp hu with ⟨_, hb⟩
        simpa using hb
      have h1 : (updateUserNotificationPreference noFaults newId1 now1 u c v
          ip1 ua1 dbX).1 = dbX := by
        rw [update_fk newId1 now1 u c v ip1 ua1 dbX hc hany hcont]
      rw [h1, update_fk newId2 now2 u c v ip2 ua2 dbX hc hany hcont]

/-! ### The claims -/

/-- Claim C1: for every call to `updateUserNotificationPreference`, under
any fault schedule, the preference upsert and the audit-log append commit
together or neither does: the published state either has both stores
exactly as before, or has the upserted row together with exactly its one
appended audit entry — never one write without the other. -/
theorem claim1_atomic_commit (faults : Nat → Bool) (newId : String)
    (now : Nat) (u : String) (c : PaymentNotificationType) (v : Bool)
    (ip ua : Option String) (db : DbState) :
    ((updateUserNotificationPreference faults newId now u c v ip ua
        db).1.notification_preferences = db.notification_preferences
      ∧ (updateUserNotificationPreference faults newId now u c v ip ua
        db).1.audit_logs = db.audit_logs)
    ∨ (currentOptedOut db u c ≠ v
      ∧ (updateUserNotificationPreference faults newId now u c v ip ua
          db).1.notification_preferences =
            upsertPrefRows db.notification_preferences u c v
      ∧ (updateUserNotificationPreference faults newId now u c v ip ua
          db).1.audit_logs = db.audit_logs ++
            [mkAuditEntry newId u c (currentOptedOut db u c) v now ip ua])
    := by
  rcases update_fst_cases faults newId now u c v ip ua db with h | ⟨hne, h⟩
  · exact Or.inl ⟨by rw [h], by rw [h]⟩
  · exact Or.inr ⟨hne, by rw [h]; rfl, by rw [h]; rfl⟩

/-- Claim C9: the state effect of one `updateUserNotificationPreference`
call is confined to the `(u, c)` preference row plus at most one appended
audit entry: the users table is untouched, every preference row for a
different key is unchanged, and the existing audit log is preserved as a
prefix. -/
theorem claim9_frame_effect (faults : Nat → Bool) (newId : String)
    (now : Nat) (u : String) (c : PaymentNotificationType) (v : Bool)
    (ip ua : Option String) (db : DbState) :
    (updateUserNotificationPreference faults newId now u c v ip ua
      db).1.users = db.users
    ∧ (updateUserNotificationPreference faults newId now u c v ip ua
        db).1.notification_preferences.filter (fun r => !(matchesKey u c r))
      = db.notification_preferences.filter (fun r => !(matchesKey u c r))
    ∧ ((updateUserNotificationPreference faults newId now u c v ip ua
          db).1.audit_logs = db.audit_logs
      ∨ (updateUserNotificationPreference faults newId now u c v ip ua
          db).1.audit_logs = db.audit_logs ++
            [mkAuditEntry newId u c (currentOptedOut db u c) v now ip ua])
    := by
  rcases update_fst_cases faults newId now u c v ip ua db with h | ⟨_, h⟩
  · rw [h]
    exact ⟨rfl, rfl, Or.inl rfl⟩
  · rw [h]
    exact ⟨rfl, filter_not_match_upsert _ _ _ _, Or.inr rfl⟩

/-- Claim C2: over any fault-free sequence of `setPreference` calls by
existing users, the audit entries recorded for a key `(u, c)` are exactly
the value transitions of that key: one entry per call whose requested
value differed from the immediately preceding effective value (absence
counting as `false`), with matching `(old, new)` pairs, and none for
calls that did not change the value; in particular the entry count adds
up accordingly. -/
theorem claim2_audit_correspondence (db : DbState) (u : String)
    (c : PaymentNotificationType) (calls : List SetPreferenceCall)
    (husers : ∀ k ∈ calls, db.users.contains k.userId = true) :
    auditPairsFor (runCalls db calls) u c =
      auditPairsFor db u c ++
        specAuditPairs (currentOptedOut db u c) u c calls
    ∧ ((runCalls db calls).audit_logs.filter
        (fun e => e.user_id == u && e.notification_type == c)).length =
      (db.audit_logs.filter
        (fun e => e.user_id == u && e.notification_type == c)).length
      + (specAuditPairs (currentOptedOut db u c) u c calls).length := by
  have h := auditPairsFor_runCalls u c calls db husers
  refine ⟨h, ?_⟩
  have hlen := congrArg List.length h
  simpa [auditPairsFor, List.length_map, List.length_append] using hlen

/-- Witness for C2 at a concrete input: user `u1` opts out of
payment-success twice (second is a no-op) and of payment-failure once;
the success key gets exactly one entry, `(false, true)`. -/
theorem claim2_witness :
    (∀ k ∈ [wCall1, wCall2, wCall3], dbW.users.contains k.userId = true)
    ∧ (auditPairsFor (runCalls dbW [wCall1, wCall2, wCall3]) "u1"
          PaymentNotificationType.PaymentSuccess =
        auditPairsFor dbW "u1" PaymentNotificationType.PaymentSuccess ++
          specAuditPairs (currentOptedOut dbW "u1"
              PaymentNotificationType.PaymentSuccess) "u1"
            PaymentNotificationType.PaymentSuccess [wCall1, wCall2, wCall3]
      ∧ ((runCalls dbW [wCall1, wCall2, wCall3]).audit_logs.filter
          (fun e => e.user_id == "u1" && e.notification_type ==
            PaymentNotificationType.PaymentSuccess)).length =
        (dbW.audit_logs.filter
          (fun e => e.user_id == "u1" && e.notification_type ==
            PaymentNotificationType.PaymentSuccess)).length
        + (specAuditPairs (currentOptedOut dbW "u1"
              PaymentNotificationType.PaymentSuccess) "u1"
            PaymentNotificationType.PaymentSuccess
            [wCall1, wCall2, wCall3]).length) :=
  ⟨by decide, claim2_audit_correspondence dbW "u1"
    PaymentNotificationType.PaymentSuccess [wCall1, wCall2, wCall3]
    (by decide)⟩

/-- Claim C3: when the stored value for `(u, c)` (absence counting as
`false`) already equals the requested value, `setPreference` writes no
preference row and no audit entry and still returns the full current
preference view; and for any state, a second fault-free call with the
same arguments as the first leaves the state of the first call unchanged
— in particular it appends no audit entry. -/
theorem claim3_idempotent_noop (db dbX : DbState) (newId1 newId2 : String)
    (now1 now2 : Nat) (u : String) (c : PaymentNotificationType) (v : Bool)
    (ip1 ua1 ip2 ua2 : Option String)
    (h : currentOptedOut db u c = v) :
    updateUserNotificationPreference noFaults newId1 now1 u c v ip1 ua1 db
      = (db, Except.ok (getUserNotificationPreferences db u))
    ∧ (updateUserNotificationPreference noFaults newId2 now2 u c v ip2 ua2
        ((updateUserNotificationPreference noFaults newId1 now1 u c v ip1
          ua1 dbX).1)).1
      = (updateUserNotificationPreference noFaults newId1 now1 u c v ip1
          ua1 dbX).1
    ∧ (updateUserNotificationPreference noFaults newId2 now2 u c v ip2 ua2
        ((updateUserNotificationPreference noFaults newId1 now1 u c v ip1
          ua1 dbX).1)).1.audit_logs
      = (updateUserNotificationPreference noFaults newId1 now1 u c v ip1
          ua1 dbX).1.audit_logs := by
  refine ⟨update_noop newId1 now1 u c v ip1 ua1 db h, ?_, ?_⟩
  · exact second_call_same_value dbX newId1 newId2 now1 now2 u c v
      ip1 ua1 ip2 ua2
  · rw [second_call_same_value dbX newId1 newId2 now1 now2 u c v
      ip1 ua1 ip2 ua2]

/-- Witness for C3 at a concrete input: `u1` has no stored row, so
requesting the default `false` is a no-op, and repeating a call changes
nothing the second time. -/
theorem claim3_witness :
    currentOptedOut dbW "u1" PaymentNotificationType.PaymentSuccess = false
    ∧ (updateUserNotificationPreference noFaults "id1" 1 "u1"
        PaymentNotificationType.PaymentSuccess false none none dbW
      = (dbW, Except.ok (getUserNotificationPreferences dbW "u1"))
    ∧ (updateUserNotificationPreference noFaults "id2" 2 "u1"
        PaymentNotificationType.PaymentSuccess false none none
        ((updateUserNotificationPreference noFaults "id1" 1 "u1"
          PaymentNotificationType.PaymentSuccess false none none dbW).1)).1
      = (updateUserNotificationPreference noFaults "id1" 1 "u1"
          PaymentNotificationType.PaymentSuccess false none none dbW).1
    ∧ (updateUserNotificationPreference noFaults "id2" 2 "u1"
        PaymentNotificationType.PaymentSuccess false none none
        ((updateUserNotificationPreference noFaults "id1" 1 "u1"
          PaymentNotificationType.PaymentSuccess false none none dbW).1)).1.audit_logs
      = (updateUserNotificationPreference noFaults "id1" 1 "u1"
          PaymentNotificationType.PaymentSuccess false none none dbW).1.audit_logs) :=
  ⟨by decide, claim3_idempotent_noop dbW dbW "id1" "id2" 1 2 "u1"
    PaymentNotificationType.PaymentSuccess false none none none none
    (by decide)⟩

/-- Claim C4: for every user — including one with no stored rows —
`getUserNotificationPreferences` is total and returns exactly one entry
per known category, in the fixed order of `allTypes`; when the stored
rows respect the primary-key invariant, each entry carries the stored
`opted_out` value where a row exists for `(user, category)` and the
default `false` otherwise; with zero stored rows it returns all
defaults. -/
theorem claim4_default_fill (db : DbState) (u : String)
    (hcons : PrefsConsistent db.notification_preferences) :
    (getUserNotificationPreferences db u).map (fun p => p.type) = allTypes
    ∧ getUserNotificationPreferences db u =
        allTypes.map (fun t =>
          { type := t,
            optedOut := ((db.notification_preferences.find?
              (matchesKey u t)).map (fun r => r.opted_out)).getD false })
    ∧ ((∀ r ∈ db.notification_preferences, r.user_id ≠ u) →
        getUserNotificationPreferences db u =
          allTypes.map (fun t => { type := t, optedOut := false })) := by
  refine ⟨getPrefs_types db u, ?_, fun h => getPrefs_default db u h⟩
  rw [getPrefs_of_consistent db u hcons]
  apply List.map_congr_left
  intro t _
  rw [currentOptedOut_eq]

/-- Witness for C4 at a concrete input: one stored opt-out row for `u1`
on payment-success; the view uses it and defaults the other two
categories. -/
theorem claim4_witness :
    PrefsConsistent dbW4.notification_preferences
    ∧ ((getUserNotificationPreferences dbW4 "u1").map (fun p => p.type)
        = allTypes
    ∧ getUserNotificationPreferences dbW4 "u1" =
        allTypes.map (fun t =>
          { type := t,
            optedOut := ((dbW4.notification_preferences.find?
              (matchesKey "u1" t)).map (fun r => r.opted_out)).getD false })
    ∧ ((∀ r ∈ dbW4.notification_preferences, r.user_id ≠ "u1") →
        getUserNotificationPreferences dbW4 "u1" =
          allTypes.map (fun t => { type := t, optedOut := false }))) :=
  ⟨by decide, claim4_default_fill dbW4 "u1" (by decide)⟩

/-- Claim C5: a write-path request whose category does not decode to a
member of the enumeration, or whose `optedOut` is not a boolean, is
rejected with the 400 validation response before the service is invoked,
and the state is unchanged — under any fault schedule. -/
theorem claim5_validation_rejects (faults : Nat → Bool) (newId : String)
    (now : Nat) (userId : String) (bodyType bodyOptedOut : JsonValue)
    (ip ua : Option String) (db : DbState)
    (h : decodeNotificationType bodyType = none
      ∨ ∀ b : Bool, bodyOptedOut ≠ JsonValue.jbool b) :
    updateNotificationPreferenceHandler faults newId now userId bodyType
      bodyOptedOut ip ua db = (db, HandlerResponse.badRequest) := by
  unfold updateNotificationPreferenceHandler
  rcases h with h | h
  · rw [h]
  · cases hbt : decodeNotificationType bodyType with
    | none =>
      cases bodyOptedOut <;> rfl
    | some ty =>
      cases bodyOptedOut with
      | jnull => rfl
      | jbool b => exact absurd rfl (h b)
      | jnum n => rfl
      | jstr s => rfl

/-- Witness for C5 at a concrete input: an unknown category string is
rejected with 400 and no state change. -/
theorem claim5_witness :
    (decodeNotificationType (JsonValue.jstr "unknown_category") = none
      ∨ ∀ b : Bool, JsonValue.jbool true ≠ JsonValue.jbool b)
    ∧ updateNotificationPreferenceHandler noFaults "id1" 1 "u1"
        (JsonValue.jstr "unknown_category") (JsonValue.jbool true)
        none none dbW = (dbW, HandlerResponse.badRequest) :=
  ⟨Or.inl (by decide), claim5_validation_rejects noFaults "id1" 1 "u1"
    (JsonValue.jstr "unknown_category") (JsonValue.jbool true) none none
    dbW (Or.inl (by decide))⟩

/-- Claim C6: `shouldSendNotification` is the negation of the stored
value read (absence of a row meaning send), it is a pure read — a
function of the state with no state output — and across any fault-free
call sequence by existing users it returns `false` exactly when the most
recent `setPreference` for that key requested (and hence left effective)
the value `true`. -/
theorem claim6_gate_consistency (db : DbState) (u : String)
    (c : PaymentNotificationType) (calls : List SetPreferenceCall)
    (husers : ∀ k ∈ calls, db.users.contains k.userId = true) :
    shouldSendNotification db u c = !(currentOptedOut db u c)
    ∧ shouldSendNotification (runCalls db calls) u c =
        !(specFinalValue (currentOptedOut db u c) u c calls)
    ∧ (shouldSendNotification (runCalls db calls) u c = false ↔
        specFinalValue (currentOptedOut db u c) u c calls = true) := by
  have h2 : shouldSendNotification (runCalls db calls) u c =
      !(specFinalValue (currentOptedOut db u c) u c calls) := by
    rw [shouldSend_eq_not_current,
      currentOptedOut_runCalls u c calls db husers]
  refine ⟨shouldSend_eq_not_current db u c, h2, ?_⟩
  rw [h2]
  cases specFinalValue (currentOptedOut db u c) u c calls <;> simp

/-- Witness for C6 at a concrete input: after `u1` opts out of
payment-success, the gate suppresses exactly that category. -/
theorem claim6_witness :
    (∀ k ∈ [wCall1], dbW.users.contains k.userId = true)
    ∧ (shouldSendNotification dbW "u1"
          PaymentNotificationType.PaymentSuccess =
        !(currentOptedOut dbW "u1" PaymentNotificationType.PaymentSuccess)
    ∧ shouldSendNotification (runCalls dbW [wCall1]) "u1"
          PaymentNotificationType.PaymentSuccess =
        !(specFinalValue (currentOptedOut dbW "u1"
            PaymentNotificationType.PaymentSuccess) "u1"
          PaymentNotificationType.PaymentSuccess [wCall1])
    ∧ (shouldSendNotification (runCalls dbW [wCall1]) "u1"
          PaymentNotificationType.PaymentSuccess = false ↔
        specFinalValue (currentOptedOut dbW "u1"
            PaymentNotificationType.PaymentSuccess) "u1"
          PaymentNotificationType.PaymentSuccess [wCall1] = true)) :=
  ⟨by decide, claim6_gate_consistency dbW "u1"
    PaymentNotificationType.PaymentSuccess [wCall1] (by decide)⟩

/-- Claim C7: whenever a write-path call returns successfully (under any
fault schedule), the returned value is the full preference view of the
published state — one entry per known category in the fixed order — and
its entry for the written category carries the requested value. -/
theorem claim7_success_view (faults : Nat → Bool) (newId : String)
    (now : Nat) (u : String) (c : PaymentNotificationType) (v : Bool)
    (ip ua : Option String) (db : DbState)
    (prefs : List NotificationPreference)
    (hcons : PrefsConsistent db.notification_preferences)
    (hok : (updateUserNotificationPreference faults newId now u c v ip ua
      db).2 = Except.ok prefs) :
    prefs = getUserNotificationPreferences
        ((updateUserNotificationPreference faults newId now u c v ip ua
          db).1) u
    ∧ prefs.map (fun p => p.type) = allTypes
    ∧ prefs.find? (fun p => p.type == c) = some { type := c, optedOut := v }
    := by
  rcases update_cases_full faults newId now u c v ip ua db with
    h | h | h | ⟨heq, h⟩ | ⟨hne, h⟩
  · rw [h] at hok
    exact absurd hok (by simp)
  · rw [h] at hok
    exact absurd hok (by simp)
  · rw [h] at hok
    exact absurd hok (by simp)
  · rw [h] at hok
    have hp : prefs = getUserNotificationPreferences db u := by
      simpa using hok.symm
    rw [h]
    refine ⟨by rw [hp], by rw [hp]; exact getPrefs_types db u, ?_⟩
    rw [hp, getPrefs_find?_entry]
    have hval : (buildPrefMap (db.notification_preferences.filter
        (fun r => r.user_id == u)) c).getD false = v := by
      rw [buildPrefMap_filter_user _ _ _ hcons, ← currentOptedOut_eq, heq]
    rw [hval]
  · rw [h] at hok
    have hp : prefs = getUserNotificationPreferences
        (committedState db newId now u c v ip ua) u := by
      simpa using hok.symm
    rw [h]
    refine ⟨by rw [hp], by rw [hp]; exact getPrefs_types _ u, ?_⟩
    rw [hp, getPrefs_find?_entry]
    have hval : (buildPrefMap ((committedState db newId now u c v ip
        ua).notification_preferences.filter (fun r => r.user_id == u))
        c).getD false = v := by
      rw [prefs_committedState, buildPrefMap_upsert_self]
      rfl
    rw [hval]

/-- Witness for C7 at a concrete input: `u1` opts out of payment-success
on a fresh database; the returned view lists all three categories with
the written one set to `true`. -/
theorem claim7_witness :
    PrefsConsistent dbW.notification_preferences
    ∧ (updateUserNotificationPreference noFaults "id1" 1 "u1"
        PaymentNotificationType.PaymentSuccess true none none dbW).2 =
      Except.ok
        [{ type := PaymentNotificationType.PaymentSuccess, optedOut := true },
         { type := PaymentNotificationType.PaymentFailure, optedOut := false },
         { type := PaymentNotificationType.PaymentRefund, optedOut := false }]
    ∧ ([{ type := PaymentNotificationType.PaymentSuccess, optedOut := true },
        { type := PaymentNotificationType.PaymentFailure, optedOut := false },
        { type := PaymentNotificationType.PaymentRefund, optedOut := false }]
          = getUserNotificationPreferences
            ((updateUserNotificationPreference noFaults "id1" 1 "u1"
              PaymentNotificationType.PaymentSuccess true none none
              dbW).1) "u1"
      ∧ ([{ type := PaymentNotificationType.PaymentSuccess, optedOut := true },
          { type := PaymentNotificationType.PaymentFailure, optedOut := false },
          { type := PaymentNotificationType.PaymentRefund, optedOut := false }]
            : List NotificationPreference).map (fun p => p.type) = allTypes
      ∧ ([{ type := PaymentNotificationType.PaymentSuccess, optedOut := true },
          { type := PaymentNotificationType.PaymentFailure, optedOut := false },
          { type := PaymentNotificationType.PaymentRefund, optedOut := false }]
            : List NotificationPreference).find?
          (fun p => p.type == PaymentNotificationType.PaymentSuccess) =
        some { type := PaymentNotificationType.PaymentSuccess,
               optedOut := true }) :=
  ⟨by decide, by rfl,
    claim7_success_view noFaults "id1" 1 "u1"
      PaymentNotificationType.PaymentSuccess true none none dbW
      [{ type := PaymentNotificationType.PaymentSuccess, optedOut := true },
       { type := PaymentNotificationType.PaymentFailure, optedOut := false },
       { type := PaymentNotificationType.PaymentRefund, optedOut := false }]
      (by decide) (by rfl)⟩

/-- Counterexample to claim C8 as stated: audit-log identifiers come from
`uuidv4()` and are not generation-ordered.  On a fresh database, two
effective calls that draw the uuids "b" then "a" leave two audit entries
whose creation order (`changed_at` 1 then 2, positions 0 then 1)
disagrees with the identifier order: the later entry's id "a" is not
greater than the earlier entry's id "b". -/
theorem claim8_counterexample :
    ((runCalls dbW [kOld, kNew]).audit_logs.map
        (fun e => (e.id, e.changed_at)) = [("b", 1), ("a", 2)])
    ∧ ¬("b" < "a") := by
  refine ⟨by decide, ?_⟩
  rw [String.lt_iff_toList_lt]
  decide

/-- Claim C8 as amended: every audit-log entry is assigned, at creation
time, the identifier drawn from the uuid generator for its call — at most
one entry per call, carrying exactly that id — and entries created from
distinct generator draws have distinct identifiers; but identifiers are
not generation-ordered, so ordering by id need not agree with creation
order. -/
theorem claim8_amended_ids (faults : Nat → Bool) (newId : String)
    (now : Nat) (u : String) (c : PaymentNotificationType) (v : Bool)
    (ip ua : Option String) (db : DbState) (k1 k2 : SetPreferenceCall)
    (hid : k1.newId ≠ k2.newId) :
    ((updateUserNotificationPreference faults newId now u c v ip ua
        db).1.audit_logs = db.audit_logs
      ∨ ((updateUserNotificationPreference faults newId now u c v ip ua
          db).1.audit_logs = db.audit_logs ++
            [mkAuditEntry newId u c (currentOptedOut db u c) v now ip ua]
        ∧ (mkAuditEntry newId u c (currentOptedOut db u c) v now ip
            ua).id = newId))
    ∧ (((runCalls db [k1, k2]).audit_logs.drop db.audit_logs.length).map
        (fun e => e.id)).Nodup := by
  constructor
  · rcases update_fst_cases faults newId now u c v ip ua db with h | ⟨_, h⟩
    · exact Or.inl (by rw [h])
    · exact Or.inr ⟨by rw [h]; rfl, rfl⟩
  · have h12 : runCalls db [k1, k2] = applyCall (applyCall db k1) k2 := rfl
    rw [h12]
    rcases applyCall_audit (applyCall db k1) k2 with h2 | h2 <;>
      rcases applyCall_audit db k1 with h1 | h1
    · rw [h2, h1]
      simp [List.drop_length]
    · rw [h2, h1]
      simp [List.drop_left, mkAuditEntry]
    · rw [h2, h1]
      simp [List.drop_left, mkAuditEntry]
    · rw [h2, h1, List.append_assoc]
      rw [List.drop_left]
      simp [mkAuditEntry, hid]

/-- Witness for the amended C8 at a concrete input: the two calls of the
counterexample draw distinct uuids, so the two appended entries carry
distinct identifiers. -/
theorem claim8_witness :
    kOld.newId ≠ kNew.newId
    ∧ (((updateUserNotificationPreference noFaults "id9" 9 "u1"
          PaymentNotificationType.PaymentRefund true none none
          dbW).1.audit_logs = dbW.audit_logs
        ∨ ((updateUserNotificationPreference noFaults "id9" 9 "u1"
            PaymentNotificationType.PaymentRefund true none none
            dbW).1.audit_logs = dbW.audit_logs ++
              [mkAuditEntry "id9" "u1" PaymentNotificationType.PaymentRefund
                (currentOptedOut dbW "u1"
                  PaymentNotificationType.PaymentRefund) true 9 none none]
          ∧ (mkAuditEntry "id9" "u1" PaymentNotificationType.PaymentRefund
              (currentOptedOut dbW "u1"
                PaymentNotificationType.PaymentRefund) true 9 none
              none).id = "id9"))
      ∧ (((runCalls dbW [kOld, kNew]).audit_logs.drop
          dbW.audit_logs.length).map (fun e => e.id)).Nodup) :=
  ⟨by decide, claim8_amended_ids noFaults "id9" 9 "u1"
    PaymentNotificationType.PaymentRefund true none none dbW kOld kNew
    (by decide)⟩

/-- Claim C10: for a user id with no row in the users table (and hence no
preference rows, by the foreign key), an opt-out request is not a
validation failure: the service performs no user-existence check, the
preference insert hits the foreign-key constraint, the transaction rolls
back with no state change, and the storage-class error — not
`InvalidArgument` — propagates through the handler as a server error. -/
theorem claim10_missing_user_fk (newId : String) (now : Nat) (u : String)
    (c : PaymentNotificationType) (ip ua : Option String) (db : DbState)
    (hnu : db.users.contains u = false)
    (hnr : ∀ r ∈ db.notification_preferences, r.user_id ≠ u) :
    updateUserNotificationPreference noFaults newId now u c true ip ua db
      = (db, Except.error DbError.fkViolation)
    ∧ updateNotificationPreferenceHandler noFaults newId now u
        (JsonValue.jstr (typeString c)) (JsonValue.jbool true) ip ua db
      = (db, HandlerResponse.serverError DbError.fkViolation) := by
  have hcur : currentOptedOut db u c = false :=
    currentOptedOut_no_rows db u c hnr
  have hany := any_no_rows db u c hnr
  have hupd := update_fk newId now u c true ip ua db
    (by rw [hcur]; simp) hany hnu
  refine ⟨hupd, ?_⟩
  cases c with
  | PaymentSuccess =>
    have hred : updateNotificationPreferenceHandler noFaults newId now u
        (JsonValue.jstr (typeString PaymentNotificationType.PaymentSuccess)) (JsonValue.jbool true) ip ua db
        = (match updateUserNotificationPreference noFaults newId now u
            PaymentNotificationType.PaymentSuccess true ip ua db with
          | (db', Except.ok p) => (db', HandlerResponse.ok p)
          | (db', Except.error e) => (db', HandlerResponse.serverError e))
        := rfl
    rw [hred, hupd]
  | PaymentFailure =>
    have hred : updateNotificationPreferenceHandler noFaults newId now u
        (JsonValue.jstr (typeString PaymentNotificationType.PaymentFailure)) (JsonValue.jbool true) ip ua db
        = (match updateUserNotificationPreference noFaults newId now u
            PaymentNotificationType.PaymentFailure true ip ua db with
          | (db', Except.ok p) => (db', HandlerResponse.ok p)
          | (db', Except.error e) => (db', HandlerResponse.serverError e))
        := rfl
    rw [hred, hupd]
  | PaymentRefund =>
    have hred : updateNotificationPreferenceHandler noFaults newId now u
        (JsonValue.jstr (typeString PaymentNotificationType.PaymentRefund)) (JsonValue.jbool true) ip ua db
        = (match updateUserNotificationPreference noFaults newId now u
            PaymentNotificationType.PaymentRefund true ip ua db with
          | (db', Except.ok p) => (db', HandlerResponse.ok p)
          | (db', Except.error e) => (db', HandlerResponse.serverError e))
        := rfl
    rw [hred, hupd]

/-- Witness for C10 at a concrete input: user id "ghost" has no users
row; the write fails with the foreign-key storage error and no state
change, and the handler returns the server error, not the 400
validation response. -/
theorem claim10_witness :
    dbW.users.contains "ghost" = false
    ∧ (∀ r ∈ dbW.notification_preferences, r.user_id ≠ "ghost")
    ∧ (updateUserNotificationPreference noFaults "id1" 1 "ghost"
        PaymentNotificationType.PaymentSuccess true none none dbW
      = (dbW, Except.error DbError.fkViolation)
    ∧ updateNotificationPreferenceHandler noFaults "id1" 1 "ghost"
        (JsonValue.jstr (typeString PaymentNotificationType.PaymentSuccess))
        (JsonValue.jbool true) none none dbW
      = (dbW, HandlerResponse.serverError DbError.fkViolation)) :=
  ⟨by decide, by decide,
    claim10_missing_user_fk "id1" 1 "ghost"
      PaymentNotificationType.PaymentSuccess none none dbW
      (by decide) (by decide)⟩
